import Mathlib

/-!
Verification of the beartype configuration and argument-introspection slice:
a shallow embedding of `beartype/_decor/conf.py` and
`beartype/_util/func/arg/utilfuncargtest.py`, with theorems settling the
spec's claims about them.
-/

/--
Enumeration of container type-checking strategies, translated from the
`BeartypeStrategy` enumeration of `beartype/_decor/conf.py` (lines 27-88):
four members `O0`, `O1`, `Ologn`, `On`, declared in that order.
-/
inductive BeartypeStrategy
  | O0
  | O1
  | Ologn
  | On
deriving DecidableEq

/--
Underlying integer value of each `BeartypeStrategy` member. The source
assigns values by `auto()` (aliased `next_enum_member_value`), so members
receive 1, 2, 3, 4 in declaration order; the `@unique` decorator (aliased
`die_unless_enum_member_values_unique`) requires these values be pairwise
distinct.
-/
def BeartypeStrategy.value : BeartypeStrategy → Nat
  | .O0 => 1
  | .O1 => 2
  | .Ologn => 3
  | .On => 4

/-- Python attribute name of each `BeartypeStrategy` member. -/
def BeartypeStrategy.pyname : BeartypeStrategy → String
  | .O0 => "O0"
  | .O1 => "O1"
  | .Ologn => "Ologn"
  | .On => "On"

/-- The list of all `BeartypeStrategy` members, in declaration order. -/
def BeartypeStrategy.members : List BeartypeStrategy := [.O0, .O1, .Ologn, .On]

/--
A dynamically typed Python value, as passed to the source's runtime
`isinstance` checks: booleans, integers, strings, `BeartypeStrategy`
members, and `None`.
-/
inductive PyVal
  | bool (b : Bool)
  | int (n : Int)
  | str (s : String)
  | strat (s : BeartypeStrategy)
  | pynone
deriving DecidableEq

/-- Python `isinstance(v, bool)`: true only for actual booleans. -/
def isinstance_bool : PyVal → Bool
  | .bool _ => true
  | _ => false

/--
Python `isinstance(v, int)`: true for integers and also for booleans,
since Python's `bool` is a subclass of `int`.
-/
def isinstance_int : PyVal → Bool
  | .int _ => true
  | .bool _ => true
  | _ => false

/-- Python `isinstance(v, str)`: true only for strings. -/
def isinstance_str : PyVal → Bool
  | .str _ => true
  | _ => false

/-- Python `isinstance(v, BeartypeStrategy)`: true only for enum members. -/
def isinstance_strategy : PyVal → Bool
  | .strat _ => true
  | _ => false

/-- The boolean carried by a `PyVal` known to be a boolean. -/
def pyval_bool : PyVal → Bool
  | .bool b => b
  | _ => false

/--
The integer carried by a `PyVal` satisfying `isinstance_int`; Python
coerces `True` to 1 and `False` to 0 when used as an `int`.
-/
def pyval_int : PyVal → Int
  | .int n => n
  | .bool b => if b then 1 else 0
  | _ => 0

/-- The string carried by a `PyVal` known to be a string. -/
def pyval_string : PyVal → String
  | .str s => s
  | _ => ""

/-- The strategy carried by a `PyVal` known to be a strategy member. -/
def pyval_strategy : PyVal → BeartypeStrategy
  | .strat s => s
  | _ => .O1

/-- Python `str(v)` rendering, as interpolated into f-string messages. -/
def pyval_str : PyVal → String
  | .bool b => if b then "True" else "False"
  | .int n => toString n
  | .str s => s
  | .strat s => "BeartypeStrategy." ++ s.pyname
  | .pynone => "None"

/--
A raised Python exception: `ValueError` (raised by configuration
validation), `AssertionError` (raised by a failed `assert` statement,
carrying the assert's message or the empty string for a bare assert), or
an instance of a caller-supplied exception class identified by name (the
`exception_cls` parameters, defaulting to `_BeartypeUtilCallableException`).
`AssertionError` is a constructor distinct from both documented error
kinds.
-/
inductive PyError
  | valueError (msg : String)
  | assertionError (msg : String)
  | exceptionOf (cls : String) (msg : String)
deriving DecidableEq

/--
The attribute state of a `BeartypeConfiguration` instance: each field is
`none` until the corresponding `self.`-assignment in `__init__` executes.
-/
structure BeartypeConfigurationState where
  is_debug : Option Bool
  strategy : Option BeartypeStrategy
deriving DecidableEq

/--
Translation of `BeartypeConfiguration.__init__` from
`beartype/_decor/conf.py` (lines 125-138), over dynamically typed
arguments. The source checks `isinstance(is_debug, bool)` and raises a
bare `ValueError()` on failure, then checks
`isinstance(strategy, BeartypeStrategy)` and raises a bare `ValueError()`
on failure, and only then assigns `self.is_debug` and `self.strategy`.
The result pairs the final attribute state with the raised error, if any;
on error both fields remain unassigned.
-/
def BeartypeConfiguration.init (is_debug : PyVal) (strategy : PyVal) :
    BeartypeConfigurationState × Option PyError :=
  if isinstance_bool is_debug = false then
    (⟨Option.none, Option.none⟩, some (.valueError ""))
  else if isinstance_strategy strategy = false then
    (⟨Option.none, Option.none⟩, some (.valueError ""))
  else
    (⟨some (pyval_bool is_debug), some (pyval_strategy strategy)⟩, Option.none)

/--
Construction of a `BeartypeConfiguration` with Python's default argument
values from the source signature: `is_debug` defaults to `False` and
`strategy` defaults to `BeartypeStrategy.O1` when the argument is omitted
(modelled as `Option.none`).
-/
def BeartypeConfiguration.construct
    (is_debug : Option PyVal) (strategy : Option PyVal) :
    BeartypeConfigurationState × Option PyError :=
  BeartypeConfiguration.init
    (is_debug.getD (.bool false)) (strategy.getD (.strat .O1))

/--
Instantiation of the `BeartypeConfiguration` class. The class declares no
`__new__` and no construction cache (its own FIXME comment at lines 91-108
says memoization *must* be added but is absent), so Python's default
`object.__new__` allocates a fresh object — modelled by an allocation
counter yielding a fresh identity — and then `__init__` runs. Returns
`((identity, state, error), next counter)`.
-/
def BeartypeConfiguration.instantiate (next_id : Nat)
    (is_debug strategy : PyVal) :
    (Nat × BeartypeConfigurationState × Option PyError) × Nat :=
  ((next_id, BeartypeConfiguration.init is_debug strategy), next_id + 1)

/--
The `BEAR_CONF_DEFAULT` singleton of `beartype/_decor/conf.py` (line 144):
one configuration built at import time from all-default field values.
-/
def BEAR_CONF_DEFAULT : BeartypeConfigurationState × Option PyError :=
  BeartypeConfiguration.construct Option.none Option.none

/--
The static signature of a pure-interpretable (pure-Python) callable,
modelled — as the spec's design notes direct — as an explicit descriptor:
the callable's name, its positional-only parameter names, its flexible
(positional-or-keyword) parameter names, the name of its variadic
positional collector if declared, its keyword-only parameter names, and
the name of its variadic keyword collector if declared, each list in
declaration order.
-/
structure Func where
  name : String
  args_posonly : List String
  args_flex : List String
  varPos : Option String
  args_kwonly : List String
  varKw : Option String
deriving DecidableEq

/-- CPython `co_posonlyargcount`: number of positional-only parameters. -/
def Func.co_posonlyargcount (f : Func) : Nat := f.args_posonly.length

/--
CPython `co_argcount`: number of non-variadic non-keyword-only
parameters, positional-only parameters included.
-/
def Func.co_argcount (f : Func) : Nat :=
  f.args_posonly.length + f.args_flex.length

/-- CPython `co_kwonlyargcount`: number of keyword-only parameters. -/
def Func.co_kwonlyargcount (f : Func) : Nat := f.args_kwonly.length

/-- CPython code-object flag bit set on optimized function code. -/
def CO_OPTIMIZED : Nat := 1

/-- CPython code-object flag bit set on function code with new locals. -/
def CO_NEWLOCALS : Nat := 2

/-- CPython `inspect.CO_VARARGS`: flag bit for a variadic positional collector. -/
def CO_VARARGS : Nat := 4

/-- CPython `inspect.CO_VARKEYWORDS`: flag bit for a variadic keyword collector. -/
def CO_VARKEYWORDS : Nat := 8

/--
CPython `co_flags` of a function's code object: the base function flags
plus `CO_VARARGS` when a variadic positional collector is declared and
`CO_VARKEYWORDS` when a variadic keyword collector is declared.
-/
def Func.co_flags (f : Func) : Nat :=
  CO_OPTIMIZED + CO_NEWLOCALS +
    (if f.varPos.isSome then CO_VARARGS else 0) +
    (if f.varKw.isSome then CO_VARKEYWORDS else 0)

/--
Modelled from the spec: `get_func_codeobj` (from
`beartype._util.func.utilfunccodeobj`, not under `src/`) resolves a
codeobjable — callable, frame, or code object — to its canonical code
object, unwrapping forwarding layers. This model's domain is already the
resolved signature descriptor of a pure-interpretable callable, so
resolution is the identity and the resolution-failure path is out of the
domain.
-/
def get_func_codeobj (func : Func) : Func := func

/--
Translation of `is_func_arg_variadic_positional` from
`utilfuncargtest.py` (lines 222-252): resolve the code object, then test
the `CO_VARARGS` bit of `co_flags`.
-/
def is_func_arg_variadic_positional (func : Func) : Bool :=
  let func_codeobj := get_func_codeobj func
  func_codeobj.co_flags &&& CO_VARARGS != 0

/--
Translation of `is_func_arg_variadic_keyword` from `utilfuncargtest.py`
(lines 255-285): resolve the code object, then test the `CO_VARKEYWORDS`
bit of `co_flags`.
-/
def is_func_arg_variadic_keyword (func : Func) : Bool :=
  let func_codeobj := get_func_codeobj func
  func_codeobj.co_flags &&& CO_VARKEYWORDS != 0

/--
Translation of `is_func_arg_variadic` from `utilfuncargtest.py`
(lines 186-219): true only if the callable declares variadic positional
or variadic keyword arguments.
-/
def is_func_arg_variadic (func : Func) : Bool :=
  is_func_arg_variadic_positional func || is_func_arg_variadic_keyword func

/--
Translation of `is_func_argless` from `utilfuncargtest.py`
(lines 137-183): true only if the callable accepts neither one or more
non-variadic arguments (`co_argcount + co_kwonlyargcount > 0`) nor one or
more variadic arguments.
-/
def is_func_argless (func : Func) : Bool :=
  let func_codeobj := get_func_codeobj func
  !(decide (func_codeobj.co_argcount + func_codeobj.co_kwonlyargcount > 0) ||
    is_func_arg_variadic func_codeobj)

/--
Modelled from the spec: `get_func_args_len_flexible` (from
`beartype._util.func.arg.utilfuncargget`, not under `src/`), the spec's
`CountFlexibleArgs`: the number of parameters passable either positionally
or by name, excluding variadic collectors and keyword-only parameters
(and hence positional-only parameters, which are not passable by name).
-/
def get_func_args_len_flexible (func : Func) : Nat :=
  func.args_flex.length

/--
Python `repr` of a function, as interpolated into error messages; the
memory address CPython appends is not modelled.
-/
def func_repr (f : Func) : String := "<function " ++ f.name ++ ">"

/--
Translation of `die_unless_func_args_len_flexible_equal` from
`utilfuncargtest.py` (lines 82-134), past its entry assert: compute the
actual flexible-parameter count and, if it differs from the expected
count, raise `exception_cls` with the message
`f'Callable {repr(func)} flexible argument count {actual} != {expected}.'`;
otherwise return `None`.
-/
def die_unless_func_args_len_flexible_equal
    (func : Func) (func_args_len_flexible : Int) (exception_cls : String) :
    Option PyError :=
  let func_args_len_flexible_actual : Int := get_func_args_len_flexible func
  if func_args_len_flexible_actual ≠ func_args_len_flexible then
    some (.exceptionOf exception_cls
      ("Callable " ++ func_repr func ++ " flexible argument count " ++
        toString func_args_len_flexible_actual ++ " != " ++
        toString func_args_len_flexible ++ "."))
  else
    Option.none

/--
`die_unless_func_args_len_flexible_equal` over a dynamically typed
expected-count argument: line 116 of the source is
`assert isinstance(func_args_len_flexible, int)`, a bare assert executed
before any signature inspection, raising a message-less `AssertionError`
when the argument is not an integer.
-/
def die_unless_func_args_len_flexible_equal_dyn
    (func : Func) (func_args_len_flexible : PyVal) (exception_cls : String) :
    Option PyError :=
  if isinstance_int func_args_len_flexible then
    die_unless_func_args_len_flexible_equal
      func (pyval_int func_args_len_flexible) exception_cls
  else
    some (.assertionError "")

/-- The kind tag of a parameter descriptor yielded by parameter iteration. -/
inductive ArgKind
  | positional_only
  | positional_or_keyword
  | var_positional
  | keyword_only
  | var_keyword
deriving DecidableEq

/-- A parameter descriptor record: a name and a kind tag. -/
structure ArgMeta where
  name : String
  kind : ArgKind
deriving DecidableEq

/--
Modelled from the spec: `iter_func_args` (from
`beartype._util.func.arg.utilfuncargiter`, not under `src/`), the
parameter-iteration primitive — a finite sequence of parameter-descriptor
records, each carrying a name and a kind tag, covering the full parameter
list in declaration order: positional-only, flexible, variadic positional,
keyword-only, variadic keyword.
-/
def iter_func_args (func : Func) : List ArgMeta :=
  func.args_posonly.map (fun n => ⟨n, .positional_only⟩) ++
  func.args_flex.map (fun n => ⟨n, .positional_or_keyword⟩) ++
  (func.varPos.map (fun n => ArgMeta.mk n .var_positional)).toList ++
  func.args_kwonly.map (fun n => ⟨n, .keyword_only⟩) ++
  (func.varKw.map (fun n => ArgMeta.mk n .var_keyword)).toList

/--
Translation of `is_func_arg_name` from `utilfuncargtest.py`
(lines 299-340), past its entry assert: true only if any parameter
yielded by `iter_func_args` bears the passed name — a linear scan over
the full ordered parameter list.
-/
def is_func_arg_name (func : Func) (arg_name : String) : Bool :=
  (iter_func_args func).any (fun arg_meta => arg_meta.name == arg_name)

/--
`is_func_arg_name` over a dynamically typed name argument: line 329 of
the source is `assert isinstance(arg_name, str), f'{arg_name} not string.'`,
executed before any signature inspection, raising an `AssertionError`
carrying that message when the argument is not a string.
-/
def is_func_arg_name_dyn (func : Func) (arg_name : PyVal) :
    Except PyError Bool :=
  if isinstance_str arg_name then
    .ok (is_func_arg_name func (pyval_string arg_name))
  else
    .error (.assertionError (pyval_str arg_name ++ " not string."))

/--
The first characterization of arglessness in claim C3, following the
spec's words: the callable accepts zero flexible and zero keyword-only
parameters and declares neither a variadic positional nor a variadic
keyword collector. (Positional-only parameters are deliberately absent,
as in the spec's wording.)
-/
def spec_is_argless_flex_kwonly (f : Func) : Bool :=
  f.args_flex.isEmpty && f.args_kwonly.isEmpty &&
    !f.varPos.isSome && !f.varKw.isSome

/--
The second characterization of arglessness in claim C3, following the
spec's words: calling the callable with zero arguments never fails due to
missing or extra arguments. Defaults are not modelled (every named
parameter is mandatory), so a zero-argument call succeeds exactly when no
named non-variadic parameter exists; variadic collectors accept zero
arguments and never cause such a failure.
-/
def spec_zero_arg_call_ok (f : Func) : Bool :=
  f.args_posonly.isEmpty && f.args_flex.isEmpty && f.args_kwonly.isEmpty

/-- The callable `def f(): ...` — no parameters at all. -/
def func_noargs : Func :=
  ⟨"f", [], [], Option.none, [], Option.none⟩

/-- The callable `def f(x): ...` — one flexible parameter. -/
def func_x : Func :=
  ⟨"f", [], ["x"], Option.none, [], Option.none⟩

/-- The callable `def f(x, /): ...` — one positional-only parameter. -/
def func_posonly_x : Func :=
  ⟨"f", ["x"], [], Option.none, [], Option.none⟩

/-- The callable `def f(*args): ...` — only a variadic positional collector. -/
def func_varargs : Func :=
  ⟨"f", [], [], some "args", [], Option.none⟩

/-- The callable `def fA(a): ...` — one flexible parameter. -/
def func_a : Func :=
  ⟨"fA", [], ["a"], Option.none, [], Option.none⟩

/-- The callable `def f(a, b): ...` — two flexible parameters. -/
def func_ab : Func :=
  ⟨"f", [], ["a", "b"], Option.none, [], Option.none⟩

/-- The callable `def f(**b): ...` — only a variadic keyword collector named `b`. -/
def func_varkw_b : Func :=
  ⟨"f", [], [], Option.none, [], some "b"⟩

/--
Helper: unfolding the code-object arithmetic, `is_func_argless` holds
exactly when the callable declares no named non-variadic parameter of any
kind and neither variadic collector.
-/
theorem is_func_argless_eq_empty (f : Func) :
    is_func_argless f =
      (f.args_posonly.isEmpty && f.args_flex.isEmpty &&
        f.args_kwonly.isEmpty && !f.varPos.isSome && !f.varKw.isSome) := by
  rcases f with ⟨nm, po, fl, vp, ko, vk⟩
  cases vp <;> cases vk <;> cases po <;> cases fl <;> cases ko <;>
    simp [is_func_argless, get_func_codeobj, Func.co_argcount,
      Func.co_kwonlyargcount, is_func_arg_variadic,
      is_func_arg_variadic_positional, is_func_arg_variadic_keyword,
      Func.co_flags, CO_OPTIMIZED, CO_NEWLOCALS, CO_VARARGS, CO_VARKEYWORDS]
  decide

/--
Claim C1: the claim states that two `Construct` calls with identical field
values return the identity-same instance via a canonicalizing cache. The
class defines no `__new__` and no cache — contradicting its own FIXME
comment demanding memoization — so every instantiation allocates a fresh
object: at the concrete failing input, two successive calls with
`is_debug = False, strategy = BeartypeStrategy.O1` yield instances with
equal field states but distinct identities.
-/
theorem construct_allocates_fresh_instance :
    (BeartypeConfiguration.instantiate 0 (.bool false) (.strat .O1)).1.2 =
      (BeartypeConfiguration.instantiate
        (BeartypeConfiguration.instantiate 0 (.bool false) (.strat .O1)).2
        (.bool false) (.strat .O1)).1.2 ∧
    (BeartypeConfiguration.instantiate 0 (.bool false) (.strat .O1)).1.1 ≠
      (BeartypeConfiguration.instantiate
        (BeartypeConfiguration.instantiate 0 (.bool false) (.strat .O1)).2
        (.bool false) (.strat .O1)).1.1 := by
  decide

/--
Claim C2: `__init__` fails with a `ValueError` exactly when `is_debug` is
not a boolean or `strategy` is not a `BeartypeStrategy` member; on valid
inputs it succeeds and the stored fields equal the inputs; the defaults
are `is_debug = False` and `strategy = BeartypeStrategy.O1` when omitted.
-/
theorem init_validates_fields :
    (∀ d s : PyVal,
      ((BeartypeConfiguration.init d s).2 = Option.none ↔
        (isinstance_bool d = true ∧ isinstance_strategy s = true)) ∧
      ((BeartypeConfiguration.init d s).2 ≠ Option.none →
        (BeartypeConfiguration.init d s).2 = some (.valueError ""))) ∧
    (∀ (b : Bool) (st : BeartypeStrategy),
      BeartypeConfiguration.init (.bool b) (.strat st) =
        (⟨some b, some st⟩, Option.none)) ∧
    BeartypeConfiguration.construct Option.none Option.none =
      (⟨some false, some .O1⟩, Option.none) := by
  refine ⟨?_, ?_, rfl⟩
  · intro d s
    cases d <;> cases s <;>
      simp [BeartypeConfiguration.init, isinstance_bool, isinstance_strategy,
        pyval_bool, pyval_strategy]
  · intro b st
    rfl

/--
Witness for C2: the theorem applied at the concrete invalid input
`is_debug = 5` (an integer, not a boolean) with a valid strategy: the
raised error is a bare `ValueError`.
-/
theorem init_validates_fields_witness :
    (BeartypeConfiguration.init (.int 5) (.strat .O1)).2 =
      some (.valueError "") :=
  (init_validates_fields.1 (.int 5) (.strat .O1)).2 (by decide)

/--
Claim C7: the `BeartypeStrategy` enumeration is a closed set of exactly
four members — every member is one of `O0`, `O1`, `Ologn`, `On` —
pairwise distinct, with equality determined by the underlying values,
which are strictly increasing along declaration order.
-/
theorem strategy_enum_closed :
    BeartypeStrategy.members.length = 4 ∧
    (∀ s : BeartypeStrategy, s ∈ BeartypeStrategy.members) ∧
    BeartypeStrategy.members.Nodup ∧
    List.Chain' (· < ·)
      (BeartypeStrategy.members.map BeartypeStrategy.value) ∧
    (∀ a b : BeartypeStrategy,
      a = b ↔ BeartypeStrategy.value a = BeartypeStrategy.value b) := by
  refine ⟨rfl, ?_, by decide,
    by simp [BeartypeStrategy.members, BeartypeStrategy.value,
      List.chain'_cons, List.chain'_singleton], ?_⟩
  · intro s
    cases s <;> decide
  · intro a b
    cases a <;> cases b <;> decide

/--
Witness for C7: the theorem applied at the concrete member `O0`, whose
membership in the closed member list follows from totality.
-/
theorem strategy_enum_closed_witness :
    BeartypeStrategy.O0 ∈ BeartypeStrategy.members :=
  strategy_enum_closed.2.1 .O0

/--
Claim C10: for every invalid input to `__init__` — non-boolean `is_debug`
or non-member `strategy` — the raised `ValueError` carries no message,
and no field of the configuration object is assigned before the error is
raised: the resulting attribute state has both fields unassigned.
-/
theorem init_invalid_bare_error_no_assignment :
    ∀ d s : PyVal,
      ¬(isinstance_bool d = true ∧ isinstance_strategy s = true) →
      BeartypeConfiguration.init d s =
        (⟨Option.none, Option.none⟩, some (.valueError "")) := by
  intro d s h
  cases d <;> cases s <;>
    simp_all [BeartypeConfiguration.init, isinstance_bool, isinstance_strategy]

/--
Witness for C10: the theorem applied at the concrete invalid input
`is_debug = None, strategy = "O1"` (a string, not a member).
-/
theorem init_invalid_bare_error_no_assignment_witness :
    BeartypeConfiguration.init .pynone (.str "O1") =
      (⟨Option.none, Option.none⟩, some (.valueError "")) :=
  init_invalid_bare_error_no_assignment .pynone (.str "O1") (by decide)

/--
Counterexample to claim C3 as stated. First, `is_func_argless` is not
equivalent to the claim's "zero flexible/keyword-only parameters and no
variadic collector" characterization: on `def f(x, /)` — one
positional-only parameter — the tester returns false while the
characterization holds, because the tested count
`co_argcount + co_kwonlyargcount` includes positional-only parameters.
Second, that characterization is not equivalent to "calling with zero
arguments never fails due to missing or extra arguments": on
`def f(*args)` the characterization fails (a variadic collector is
declared) while a zero-argument call succeeds.
-/
theorem is_func_argless_claim_false :
    (is_func_argless func_posonly_x = false ∧
      spec_is_argless_flex_kwonly func_posonly_x = true) ∧
    (spec_is_argless_flex_kwonly func_varargs = false ∧
      spec_zero_arg_call_ok func_varargs = true) := by
  decide

/--
Claim C3 (amended): `is_func_argless` returns true exactly when the
callable declares zero named non-variadic parameters of every kind —
positional-only parameters included alongside flexible and keyword-only
ones — and neither a variadic positional nor a variadic keyword
collector.
-/
theorem is_func_argless_iff_no_params :
    ∀ f : Func,
      is_func_argless f = true ↔
        (f.args_posonly = [] ∧ f.args_flex = [] ∧ f.args_kwonly = [] ∧
          f.varPos = Option.none ∧ f.varKw = Option.none) := by
  intro f
  rw [is_func_argless_eq_empty]
  rcases f with ⟨nm, po, fl, vp, ko, vk⟩
  cases vp <;> cases vk <;> simp [List.isEmpty_iff, and_assoc]

/--
Witness for C3 (amended): the theorem applied at the concrete callable
`def f()` with no parameters, which `is_func_argless` accepts.
-/
theorem is_func_argless_iff_no_params_witness :
    is_func_argless func_noargs = true :=
  (is_func_argless_iff_no_params func_noargs).2 ⟨rfl, rfl, rfl, rfl, rfl⟩

/--
Claim C4: `die_unless_func_args_len_flexible_equal` returns nothing
exactly when the computed flexible-argument count equals the expected
count, and otherwise fails with the caller-supplied exception class
carrying a message naming the callable's representation and both counts.
-/
theorem die_unless_flexible_equal_correct :
    ∀ (f : Func) (n : Int) (cls : String),
      (die_unless_func_args_len_flexible_equal f n cls = Option.none ↔
        (get_func_args_len_flexible f : Int) = n) ∧
      ((get_func_args_len_flexible f : Int) ≠ n →
        die_unless_func_args_len_flexible_equal f n cls =
          some (.exceptionOf cls
            ("Callable " ++ func_repr f ++ " flexible argument count " ++
              toString ((get_func_args_len_flexible f : Int)) ++ " != " ++
              toString n ++ "."))) := by
  intro f n cls
  unfold die_unless_func_args_len_flexible_equal
  by_cases h : (get_func_args_len_flexible f : Int) = n <;> simp [h]

/--
Witness for C4: the theorem applied at the concrete callable
`def fA(a)` — one flexible parameter — with expected count 2: the
validator fails with a message mentioning the callable's representation
and the mismatching counts 1 and 2.
-/
theorem die_unless_flexible_equal_correct_witness :
    die_unless_func_args_len_flexible_equal
        func_a 2 "_BeartypeUtilCallableException" =
      some (.exceptionOf "_BeartypeUtilCallableException"
        ("Callable " ++ func_repr func_a ++ " flexible argument count " ++
          toString ((get_func_args_len_flexible func_a : Int)) ++ " != " ++
          toString (2 : Int) ++ ".")) :=
  (die_unless_flexible_equal_correct
    func_a 2 "_BeartypeUtilCallableException").2 (by decide)

/--
Helper: scanning the descriptor records built from a name list for a
given name succeeds exactly when the name is in the list.
-/
theorem any_map_name_eq_mem (l : List String) (k : ArgKind) (n : String) :
    ((l.map fun x => ArgMeta.mk x k).any fun m => m.name == n) = true ↔
      n ∈ l := by
  induction l with
  | nil => simp
  | cons a t ih =>
    rw [List.map_cons, List.any_cons]
    simp [ih, @eq_comm String a n]

/--
Claim C5: `is_func_arg_name` returns true exactly when some parameter of
the callable — positional-only, flexible, variadic positional,
keyword-only, or variadic keyword — bears exactly the passed name.
-/
theorem is_func_arg_name_iff :
    ∀ (f : Func) (n : String),
      is_func_arg_name f n = true ↔
        (n ∈ f.args_posonly ∨ n ∈ f.args_flex ∨ f.varPos = some n ∨
          n ∈ f.args_kwonly ∨ f.varKw = some n) := by
  intro f n
  rcases f with ⟨nm, po, fl, vp, ko, vk⟩
  cases vp <;> cases vk <;>
    simp [is_func_arg_name, iter_func_args, List.any_append,
      any_map_name_eq_mem, Option.toList]

/--
Witness for C5: the theorem applied at the concrete callable
`def f(**b)` and the name `"b"`, borne by the variadic keyword collector.
-/
theorem is_func_arg_name_iff_witness :
    is_func_arg_name func_varkw_b "b" = true :=
  (is_func_arg_name_iff func_varkw_b "b").2
    (Or.inr (Or.inr (Or.inr (Or.inr rfl))))

/--
Claim C6: `is_func_arg_variadic` equals the disjunction of
`is_func_arg_variadic_positional` and `is_func_arg_variadic_keyword`,
and each of those testers returns true exactly when the corresponding
collector is declared by the callable.
-/
theorem is_func_arg_variadic_or :
    ∀ f : Func,
      is_func_arg_variadic f =
        (is_func_arg_variadic_positional f ||
          is_func_arg_variadic_keyword f) ∧
      is_func_arg_variadic_positional f = f.varPos.isSome ∧
      is_func_arg_variadic_keyword f = f.varKw.isSome := by
  intro f
  rcases f with ⟨nm, po, fl, vp, ko, vk⟩
  refine ⟨rfl, ?_, ?_⟩ <;>
    cases vp <;> cases vk <;>
      simp [is_func_arg_variadic_positional, is_func_arg_variadic_keyword,
        get_func_codeobj, Func.co_flags, CO_OPTIMIZED, CO_NEWLOCALS,
        CO_VARARGS, CO_VARKEYWORDS] <;> decide

/--
Claim C8: on every callable that declares at least one positional-only
parameter and nothing else — no flexible, keyword-only, or variadic
parameters — `is_func_argless` returns false, because the tested count
`co_argcount + co_kwonlyargcount` includes positional-only parameters.
-/
theorem is_func_argless_false_on_posonly :
    ∀ f : Func,
      f.args_flex = [] → f.args_kwonly = [] →
      f.varPos = Option.none → f.varKw = Option.none →
      f.args_posonly ≠ [] →
      is_func_argless f = false := by
  intro f hfl hko hvp hvk hpo
  rw [is_func_argless_eq_empty, hfl, hko, hvp, hvk]
  cases hp : f.args_posonly with
  | nil => exact absurd hp hpo
  | cons a l => simp

/--
Witness for C8: the theorem applied at the concrete callable
`def f(x, /)` — exactly one positional-only parameter.
-/
theorem is_func_argless_false_on_posonly_witness :
    is_func_argless func_posonly_x = false :=
  is_func_argless_false_on_posonly func_posonly_x rfl rfl rfl rfl (by decide)

/--
Claim C9: `die_unless_func_args_len_flexible_equal` asserts at entry that
its expected-count argument is an integer, and `is_func_arg_name` asserts
at entry that its name argument is a string; a call violating either
precondition fails immediately with an `AssertionError` — before any
signature inspection, so the outcome is independent of the callable —
and `AssertionError` is distinct from both error kinds of the documented
taxonomy (`ValueError` and the caller-supplied exception class).
-/
theorem entry_asserts_type_preconditions :
    ∀ (f g : Func) (v : PyVal) (cls : String),
      (isinstance_int v = false →
        die_unless_func_args_len_flexible_equal_dyn f v cls =
          some (.assertionError "") ∧
        die_unless_func_args_len_flexible_equal_dyn f v cls =
          die_unless_func_args_len_flexible_equal_dyn g v cls) ∧
      (isinstance_str v = false →
        is_func_arg_name_dyn f v =
          Except.error (.assertionError (pyval_str v ++ " not string.")) ∧
        is_func_arg_name_dyn f v = is_func_arg_name_dyn g v) ∧
      (∀ m m2 c : String,
        PyError.assertionError m ≠ PyError.valueError m2 ∧
        PyError.assertionError m ≠ PyError.exceptionOf c m2) := by
  intro f g v cls
  refine ⟨?_, ?_, ?_⟩
  · intro h
    constructor <;>
      simp [die_unless_func_args_len_flexible_equal_dyn, h]
  · intro h
    constructor <;> simp [is_func_arg_name_dyn, h]
  · intro m m2 c
    exact ⟨fun h => PyError.noConfusion h, fun h => PyError.noConfusion h⟩

/--
Witness for C9: the theorem applied at the concrete inputs
`func_args_len_flexible = "x"` (a string, not an integer): the count
validator fails with a bare `AssertionError`.
-/
theorem entry_asserts_type_preconditions_witness :
    die_unless_func_args_len_flexible_equal_dyn func_noargs (.str "x") "E" =
      some (.assertionError "") :=
  ((entry_asserts_type_preconditions
    func_noargs func_noargs (.str "x") "E").1 (by decide)).1
